import Mathlib

/-!
pearldb: request router and transactional handlers (`src/main.c`)

A shallow embedding of `__pear`, `__put`, `__get` and `__delete`.

* Byte strings (`char*` + length, `h2o_iovec_t`, `MDB_val`, `kstr_t`) are lists of `UInt8`.
* The request path `req->path` is an `h2o_iovec_t`: the field `path` holds the bytes
  stored at `path.base` up to the terminator of the buffer, the field `path_len` holds
  `path.len`, and the request path is the first `path_len` of those bytes. `__pear`
  scans from `path.base` with `strchr` and never reads `path.len`.
* The LMDB environment is a record holding the committed contents of the `docs` table,
  the number of transactions that were begun and not yet committed or aborted, and the
  log of every storage call made so far.
* The return code of every storage call that can fail for reasons outside the handler
  (`mdb_txn_begin`, `mdb_put`, `mdb_get`, `mdb_del`, `mdb_txn_commit`) is injected through
  a `Faults` record, so that every branch of the handlers can be exercised.
* `abort()` ends a handler with `Outcome.aborted`, carrying the state at that moment.
-/

namespace Pear

/-! ## Bytes and C strings -/

abbrev Bytes := List UInt8

/-- The bytes of a C string literal (without the terminator). -/
def cbytes (s : String) : Bytes := s.toList.map (fun c => c.toNat.toUInt8)

/-- The path separator, the character `'/'`. -/
def slash : UInt8 := 47

/-- `strchr(s, c)` on the bytes stored at `s`: the offset of the first `c`, scanning no
further than the terminator (a `0` byte, or the end of the list, which stands for the
terminator of the buffer).  `none` is the `NULL` result. -/
def strchr : Bytes → UInt8 → Option Nat
  | [], c => if c = 0 then some 0 else none
  | b :: rest, c =>
    if b = c then some 0
    else if b = 0 then none
    else (strchr rest c).map (· + 1)

/-- `h2o_memis(a, alen, b, blen)`: equal lengths and equal bytes. -/
def h2o_memis (a b : Bytes) : Bool :=
  if a.length ≠ b.length then false else a == b

/-! ## The storage engine (LMDB) -/

/-- `MDB_NOTFOUND` of `lmdb.h`. -/
def MDB_NOTFOUND : Int := -30798

/-- `MDB_BAD_VALSIZE` of `lmdb.h` (unsupported key or data size). -/
def MDB_BAD_VALSIZE : Int := -30781

/-- `MDB_RDONLY` of `lmdb.h`. -/
def MDB_RDONLY : Nat := 0x20000

/-- Contents of the `docs` table: at most one value per key. -/
abbrev Store := Bytes → Option Bytes

/-- A storage call, as recorded in the log of the environment. -/
inductive Call where
  | txn_begin (flags : Nat)
  | put (k v : Bytes)
  | get (k : Bytes)
  | del (k : Bytes)
  | txn_commit
  deriving DecidableEq, Repr

/-- The process-wide storage handle `sv->db_env` together with the table `sv->docs`. -/
structure Env where
  /-- committed contents of the table -/
  docs : Store
  /-- transactions begun and neither committed nor aborted -/
  open_txns : Nat
  /-- every storage call made so far, oldest first -/
  calls : List Call

/-- A transaction handle: its flags and its private view of the table. -/
structure MDB_txn where
  flags : Nat
  view : Store

/-- Return codes injected into the storage calls of one handler run.  `0` lets the call
proceed; for `mdb_get` and `mdb_del` the engine then answers `0` or `MDB_NOTFOUND` from
the table. -/
structure Faults where
  begin_rc : Int
  op_rc : Int
  commit_rc : Int

/-- No storage operation fails. -/
def Faults.none : Faults := ⟨0, 0, 0⟩

/-- Modelled from the spec: `mdb_txn_begin` of LMDB, `begin(readOnly) -> Transaction | Error`.
On success a transaction is opened on a snapshot of the table. On failure the handle
is left unset in C; the handlers never read it then. -/
def mdb_txn_begin (rc : Int) (env : Env) (flags : Nat) : Int × Env × MDB_txn :=
  let env1 := { env with calls := env.calls ++ [Call.txn_begin flags] }
  if rc ≠ 0 then (rc, env1, ⟨flags, env.docs⟩)
  else (0, { env1 with open_txns := env1.open_txns + 1 }, ⟨flags, env.docs⟩)

/-- Modelled from the spec: `mdb_put` of LMDB with flags `0`, `put(tx, key, value) -> Ok | Error`:
the value replaces whatever the key held. -/
def mdb_put (rc : Int) (env : Env) (txn : MDB_txn) (k v : Bytes) : Int × Env × MDB_txn :=
  let env1 := { env with calls := env.calls ++ [Call.put k v] }
  if rc ≠ 0 then (rc, env1, txn)
  else (0, env1, { txn with view := fun k1 => if k1 = k then some v else txn.view k1 })

/-- Modelled from the spec: `mdb_get` of LMDB, `get(tx, key) -> value | NotFound | Error`. -/
def mdb_get (rc : Int) (env : Env) (txn : MDB_txn) (k : Bytes) : Int × Env × Bytes :=
  let env1 := { env with calls := env.calls ++ [Call.get k] }
  if rc ≠ 0 then (rc, env1, [])
  else match txn.view k with
    | some v => (0, env1, v)
    | Option.none => (MDB_NOTFOUND, env1, [])

/-- Modelled from the spec: `mdb_del` of LMDB with no data argument,
`delete(tx, key) -> Ok | NotFound | Error`. -/
def mdb_del (rc : Int) (env : Env) (txn : MDB_txn) (k : Bytes) : Int × Env × MDB_txn :=
  let env1 := { env with calls := env.calls ++ [Call.del k] }
  if rc ≠ 0 then (rc, env1, txn)
  else match txn.view k with
    | some _ => (0, env1, { txn with view := fun k1 => if k1 = k then Option.none else txn.view k1 })
    | Option.none => (MDB_NOTFOUND, env1, txn)

/-- Modelled from the spec: `mdb_txn_commit` of LMDB, `commit(tx) -> Ok | Error`.  The handle is
released whatever the result; on success the view of a read-write transaction becomes
the table. -/
def mdb_txn_commit (rc : Int) (env : Env) (txn : MDB_txn) : Int × Env :=
  let env1 := { env with calls := env.calls ++ [Call.txn_commit], open_txns := env.open_txns - 1 }
  if rc ≠ 0 then (rc, env1)
  else (0, { env1 with docs := if txn.flags &&& MDB_RDONLY = 0 then txn.view else env.docs })

/-! ## Requests and responses (h2o) -/

/-- The header tokens used by the handlers. -/
inductive h2o_token where
  | H2O_TOKEN_CONTENT_TYPE
  | H2O_TOKEN_CONTENT_LENGTH
  deriving DecidableEq, Repr

open h2o_token

/-- The response part `req->res`. -/
structure h2o_res_t where
  status : Int
  reason : String
  headers : List (h2o_token × String)

/-- The fields of `h2o_req_t` that the handlers read or write, with what has been handed
to `h2o_start_response` and `h2o_send`. -/
structure h2o_req_t where
  /-- the `method.len` bytes at `method.base` -/
  method : Bytes
  /-- the bytes stored at `path.base`, up to the terminator of the buffer they lie in:
  what `strchr` can scan; h2o hands over a path of at least one byte -/
  path : Bytes
  /-- the length `path.len`: the request path is the first `path_len` bytes at `path.base`;
  no handler reads it -/
  path_len : Nat
  /-- the `entity.len` bytes at `entity.base`: the request body -/
  entity : Bytes
  res : h2o_res_t
  http1_is_persistent : Int
  /-- `h2o_start_response` has been called -/
  started : Bool
  /-- the body passed to `h2o_send` (one buffer, final), if any -/
  sent : Option Bytes

/-- `h2o_add_header(&req->pool, &req->res.headers, token, value)`. -/
def h2o_add_header (req : h2o_req_t) (token : h2o_token) (value : String) : h2o_req_t :=
  { req with res := { req.res with headers := req.res.headers ++ [(token, value)] } }

/-- `h2o_start_response(req, &generator)`. -/
def h2o_start_response (req : h2o_req_t) : h2o_req_t :=
  { req with started := true }

/-- `h2o_send(req, &body, 1, 1)`: `body` stands for the `body.len` bytes at `body.base`. -/
def h2o_send (req : h2o_req_t) (body : Bytes) : h2o_req_t :=
  { req with sent := some body }

/-- Assignment of `req->res.status` and `req->res.reason`. -/
def set_status (req : h2o_req_t) (status : Int) (reason : String) : h2o_req_t :=
  { req with res := { req.res with status := status, reason := reason } }

/-! ## Handlers -/

/-- How a handler run ends: by `abort()`, or by returning a value to h2o. -/
inductive Outcome where
  | aborted (env : Env) (req : h2o_req_t)
  | returned (ret : Int) (env : Env) (req : h2o_req_t)

/-- The environment at the end of a run. -/
def Outcome.env : Outcome → Env
  | .aborted env _ => env
  | .returned _ env _ => env

/-- The request at the end of a run. -/
def Outcome.req : Outcome → h2o_req_t
  | .aborted _ req => req
  | .returned _ _ req => req

/-- The returned value; `none` when the process was aborted. -/
def Outcome.ret : Outcome → Option Int
  | .aborted _ _ => Option.none
  | .returned r _ _ => some r

/-- The `fail:` block shared by `__get` and `__delete` (lines 158-164, 221-226):
zero-length body, status 400, return -1. -/
def handler_fail (env : Env) (req : h2o_req_t) : Outcome :=
  let req := set_status req 400 "BAD"
  let req := h2o_start_response req
  let req := h2o_send req []
  .returned (-1) env req

/-- `__put` (lines 35-85).  The `fail:` block of the source is unreachable. -/
def __put (f : Faults) (env : Env) (req : h2o_req_t) (key : Bytes) : Outcome :=
  match mdb_txn_begin f.begin_rc env 0 with
  | (e, env, txn) =>
  if e ≠ 0 then .aborted env req else
  match mdb_put f.op_rc env txn key req.entity with
  | (e, env, txn) =>
  if e ≠ 0 then .aborted env req else
  match mdb_txn_commit f.commit_rc env txn with
  | (e, env) =>
  if e ≠ 0 then .aborted env req else
  -- body.len = 0
  let req := set_status req 200 "OK"
  let req := h2o_add_header req H2O_TOKEN_CONTENT_TYPE "text/plain; charset=utf-8"
  let req := h2o_start_response req
  let req := h2o_send req []
  .returned 0 env req

/-- `__get` (lines 87-165). -/
def __get (f : Faults) (env : Env) (req : h2o_req_t) (key : Bytes) : Outcome :=
  match mdb_txn_begin f.begin_rc env MDB_RDONLY with
  | (e, env, txn) =>
  if e ≠ 0 then .aborted env req else
  match mdb_get f.op_rc env txn key with
  | (e, env, v) =>
  if e = 0 then
    -- `case 0: break;` then the check after the switch
    if e ≠ 0 then .aborted env req else
    match mdb_txn_commit f.commit_rc env txn with
    | (e, env) =>
    if e ≠ 0 then .aborted env req else
    let req := set_status req 200 "OK"
    let req := h2o_add_header req H2O_TOKEN_CONTENT_TYPE "text/plain; charset=utf-8"
    let req := h2o_start_response req
    let req := h2o_send req v
    .returned 0 env req
  else if e = MDB_NOTFOUND then
    match mdb_txn_commit f.commit_rc env txn with
    | (e, env) =>
    if e ≠ 0 then .aborted env req else
    let req := set_status req 404 "NOT FOUND"
    let req := h2o_add_header req H2O_TOKEN_CONTENT_LENGTH "0"
    let req := h2o_start_response req
    -- force keep-alive
    let req := { req with http1_is_persistent := 1 }
    let req := h2o_send req []
    .returned 0 env req
  else
    -- `default: goto fail;`
    handler_fail env req

/-- `__delete` (lines 167-227). -/
def __delete (f : Faults) (env : Env) (req : h2o_req_t) (key : Bytes) : Outcome :=
  match mdb_txn_begin f.begin_rc env 0 with
  | (e, env, txn) =>
  if e ≠ 0 then .aborted env req else
  match mdb_del f.op_rc env txn key with
  | (e, env, txn) =>
  if e = 0 then
    match mdb_txn_commit f.commit_rc env txn with
    | (e, env) =>
    if e ≠ 0 then .aborted env req else
    let req := set_status req 200 "OK"
    let req := h2o_start_response req
    let req := h2o_send req []
    .returned 0 env req
  else if e = MDB_NOTFOUND then
    match mdb_txn_commit f.commit_rc env txn with
    | (e, env) =>
    if e ≠ 0 then .aborted env req else
    let req := set_status req 404 "NOT FOUND"
    let req := h2o_start_response req
    let req := h2o_send req []
    .returned 0 env req
  else
    -- `default: goto fail;`
    handler_fail env req

/-- The `fail:` block of `__pear` (lines 250-256): zero-length body, status 400, return 0. -/
def pear_fail (env : Env) (req : h2o_req_t) : Outcome :=
  let req := set_status req 400 "BAD"
  let req := h2o_start_response req
  let req := h2o_send req []
  .returned 0 env req

/-- The key extraction of `__pear` (lines 234-241): `key.s = path.base + 1`,
`end = strchr(key.s, '/')`, `key.len = end - key.s`; `none` when `end` is `NULL`. -/
def pear_key (path : Bytes) : Option Bytes :=
  let s := path.drop 1
  match strchr s slash with
  | Option.none => Option.none
  | some e => some (s.take e)

/-- `__pear` (lines 229-257): extract the key, then dispatch on the method. -/
def __pear (f : Faults) (env : Env) (req : h2o_req_t) : Outcome :=
  match pear_key req.path with
  | Option.none => pear_fail env req
  | some key =>
    if h2o_memis req.method (cbytes "PUT") then __put f env req key
    else if h2o_memis req.method (cbytes "GET") then __get f env req key
    else if h2o_memis req.method (cbytes "DELETE") then __delete f env req key
    else pear_fail env req

/-! ## Concrete inputs -/

/-- An empty table, no open transaction, empty log. -/
def env0 : Env := ⟨fun _ => Option.none, 0, []⟩

/-- A table in which the key `foo` holds `hello`, no open transaction, empty log. -/
def env_hello : Env :=
  ⟨fun k => if k = cbytes "foo" then some (cbytes "hello") else Option.none, 0, []⟩

/-- A fresh request with the given method, path and body, whose buffer ends with the
path. -/
def mkReq (method path entity : String) : h2o_req_t :=
  ⟨cbytes method, cbytes path, (cbytes path).length, cbytes entity, ⟨0, "", []⟩, 0, false,
    Option.none⟩

/-- The request path of a request: the first `path.len` bytes at `path.base`. -/
def request_path (req : h2o_req_t) : Bytes := req.path.take req.path_len

/-- A fresh request for the path `/abc` as it lies in the input buffer of an HTTP/1.1
connection: `path.base` points into the request line, so the 4 bytes of the path are
followed by the rest of the line. -/
def req_abc (method entity : String) : h2o_req_t :=
  ⟨cbytes method, cbytes "/abc HTTP/1.1", 4, cbytes entity, ⟨0, "", []⟩, 0, false,
    Option.none⟩

/-- The environment after a request, when none of its storage calls fails. -/
def after (env : Env) (req : h2o_req_t) : Env := (__pear Faults.none env req).env

/-! ## Lemmas on the string primitives -/

theorem slash_ne_zero : slash ≠ 0 := by decide

theorem h2o_memis_iff (a b : Bytes) : h2o_memis a b = true ↔ a = b := by
  unfold h2o_memis
  constructor
  · intro h
    split at h
    · exact absurd h (by simp)
    · simpa using h
  · intro h
    subst h
    simp

theorem strchr_not_mem (s : Bytes) (h : slash ∉ s) : strchr s slash = Option.none := by
  induction s with
  | nil => simp [strchr, slash_ne_zero]
  | cons b rest ih =>
    have hb : b ≠ slash := fun e => h (by simp [e])
    have hr : slash ∉ rest := fun e => h (by simp [e])
    simp [strchr, hb, ih hr]

theorem strchr_append (k rest : Bytes) (hs : slash ∉ k) (hz : (0 : UInt8) ∉ k) :
    strchr (k ++ slash :: rest) slash = some k.length := by
  induction k with
  | nil => simp [strchr]
  | cons b k ih =>
    have hb : b ≠ slash := fun e => hs (by simp [e])
    have hb0 : b ≠ 0 := fun e => hz (by simp [e])
    have hs1 : slash ∉ k := fun e => hs (by simp [e])
    have hz1 : (0 : UInt8) ∉ k := fun e => hz (by simp [e])
    simp [strchr, hb, hb0, ih hs1 hz1]

theorem strchr_some (s : Bytes) (n : Nat) (h : strchr s slash = some n) :
    ∃ rest, s = s.take n ++ slash :: rest ∧ slash ∉ s.take n ∧ (0 : UInt8) ∉ s.take n := by
  induction s generalizing n with
  | nil => simp [strchr, slash_ne_zero] at h
  | cons b s ih =>
    unfold strchr at h
    split at h
    · rename_i hb
      simp only [Option.some.injEq] at h
      subst h
      exact ⟨s, by simp [hb], by simp, by simp⟩
    · rename_i hb
      split at h
      · exact absurd h (by simp)
      · rename_i hb0
        cases hr : strchr s slash with
        | none => simp [hr] at h
        | some m =>
          simp only [hr, Option.map_some', Option.some.injEq] at h
          subst h
          obtain ⟨rest, h1, h2, h3⟩ := ih m hr
          refine ⟨rest, ?_, ?_, ?_⟩
          · simp only [List.take_succ_cons, List.cons_append]
            exact congrArg (List.cons b) h1
          · simp only [List.take_succ_cons, List.mem_cons, not_or]
            exact ⟨fun e => hb e.symm, h2⟩
          · simp only [List.take_succ_cons, List.mem_cons, not_or]
            exact ⟨fun e => hb0 e.symm, h3⟩

theorem pear_key_of_path (c : UInt8) (k rest : Bytes) (hs : slash ∉ k) (hz : (0 : UInt8) ∉ k) :
    pear_key (c :: (k ++ slash :: rest)) = some k := by
  simp [pear_key, strchr_append k rest hs hz]

theorem pear_key_not_mem (c : UInt8) (rest : Bytes) (h : slash ∉ rest) :
    pear_key (c :: rest) = Option.none := by
  simp [pear_key, strchr_not_mem rest h]

theorem pear_key_some (path k : Bytes) (h : pear_key path = some k) :
    ∃ c rest, path = c :: (k ++ slash :: rest) ∧ slash ∉ k ∧ (0 : UInt8) ∉ k := by
  cases path with
  | nil => simp [pear_key, strchr, slash_ne_zero] at h
  | cons c p =>
    cases hr : strchr p slash with
    | none => simp [pear_key, hr] at h
    | some n =>
      simp only [pear_key, List.drop_succ_cons, List.drop_zero, hr, Option.some.injEq] at h
      obtain ⟨rest, h1, h2, h3⟩ := strchr_some p n hr
      rw [h] at h1 h2 h3
      exact ⟨c, rest, by rw [h1], h2, h3⟩

/-! ## The router -/

/-- What `__pear` does once the key is known: the method dispatch of lines 243-256. -/
theorem pear_dispatch (f : Faults) (env : Env) (req : h2o_req_t) (key : Bytes)
    (h : pear_key req.path = some key) :
    __pear f env req =
      if req.method = cbytes "PUT" then __put f env req key
      else if req.method = cbytes "GET" then __get f env req key
      else if req.method = cbytes "DELETE" then __delete f env req key
      else pear_fail env req := by
  simp only [__pear, h, h2o_memis_iff]

/-- What the router does reject: a request for which the bytes at `path.base` hold no
`'/'` after the first one up to the terminator of the buffer, whatever its method, and
a request whose method is none of `PUT`, `GET`, `DELETE`, is answered by `__pear` with
status 400 and a zero-length body; `__pear` returns 0 and the storage environment is
untouched, so no handler ran. -/
theorem router_rejects (f : Faults) (env : Env) (req : h2o_req_t)
    (h : (∃ c rest, req.path = c :: rest ∧ slash ∉ rest) ∨
         (req.method ≠ cbytes "PUT" ∧ req.method ≠ cbytes "GET" ∧
          req.method ≠ cbytes "DELETE")) :
    ∃ r, __pear f env req = Outcome.returned 0 env r ∧ r.res.status = 400 ∧
      r.sent = some [] := by
  have hfail : ∃ r, pear_fail env req = Outcome.returned 0 env r ∧ r.res.status = 400 ∧
      r.sent = some [] :=
    ⟨_, rfl, rfl, rfl⟩
  rcases h with ⟨c, rest, hp, hs⟩ | ⟨h1, h2, h3⟩
  · have hk : pear_key req.path = Option.none := by rw [hp]; exact pear_key_not_mem c rest hs
    simpa only [__pear, hk] using hfail
  · cases hk : pear_key req.path with
    | none => simpa only [__pear, hk] using hfail
    | some key =>
      rw [pear_dispatch f env req key hk]
      simpa only [h1, h2, h3, if_false] using hfail

/-- C3, the failing run. The request path `/abc` has no `'/'` after its leading
character, but in the buffer it is followed by ` HTTP/1.1`; `strchr` runs past the 4
bytes of the path, the key becomes `abc HTTP`, and `__pear` runs the handler instead of
answering 400: `GET` and `DELETE` begin a transaction and answer 404, `PUT` answers 200
and writes the body under that key. -/
theorem pear_scans_past_path :
    request_path (req_abc "GET" "") = cbytes "/abc" ∧
    slash ∉ (request_path (req_abc "GET" "")).drop 1 ∧
    pear_key (req_abc "GET" "").path = some (cbytes "abc HTTP") ∧
    (__pear Faults.none env0 (req_abc "GET" "")).req.res.status = 404 ∧
    (__pear Faults.none env0 (req_abc "GET" "")).env.calls =
      [Call.txn_begin MDB_RDONLY, Call.get (cbytes "abc HTTP"), Call.txn_commit] ∧
    (__pear Faults.none env0 (req_abc "DELETE" "")).req.res.status = 404 ∧
    (__pear Faults.none env0 (req_abc "DELETE" "")).env.calls =
      [Call.txn_begin 0, Call.del (cbytes "abc HTTP"), Call.txn_commit] ∧
    (__pear Faults.none env0 (req_abc "PUT" "hello")).req.res.status = 200 ∧
    (__pear Faults.none env0 (req_abc "PUT" "hello")).env.calls =
      [Call.txn_begin 0, Call.put (cbytes "abc HTTP") (cbytes "hello"), Call.txn_commit] ∧
    (__pear Faults.none env0 (req_abc "PUT" "hello")).env.docs (cbytes "abc HTTP") =
      some (cbytes "hello") := by
  decide

/-- C4. Key extraction: for a path made of a leading byte, then `key`, then `'/'`, then
anything, where `key` holds no `'/'` (and, being part of a C string, no terminator),
`__pear` hands exactly `key` to the handler chosen by the method. The bytes are taken
as they are, nothing after the second `'/'` matters, and the zero-length key of a path
such as `//x` is dispatched like any other. -/
theorem pear_key_extraction (f : Faults) (env : Env) (req : h2o_req_t) (c : UInt8)
    (key rest : Bytes) (hp : req.path = c :: (key ++ slash :: rest))
    (hs : slash ∉ key) (hz : (0 : UInt8) ∉ key) :
    pear_key req.path = some key ∧
    __pear f env req =
      if req.method = cbytes "PUT" then __put f env req key
      else if req.method = cbytes "GET" then __get f env req key
      else if req.method = cbytes "DELETE" then __delete f env req key
      else pear_fail env req := by
  have hk : pear_key req.path = some key := by rw [hp]; exact pear_key_of_path c key rest hs hz
  exact ⟨hk, pear_dispatch f env req key hk⟩

theorem pear_key_extraction_witness :
    pear_key (mkReq "GET" "//x" "").path = some [] ∧
    __pear Faults.none env0 (mkReq "GET" "//x" "") =
      if (mkReq "GET" "//x" "").method = cbytes "PUT" then
        __put Faults.none env0 (mkReq "GET" "//x" "") []
      else if (mkReq "GET" "//x" "").method = cbytes "GET" then
        __get Faults.none env0 (mkReq "GET" "//x" "") []
      else if (mkReq "GET" "//x" "").method = cbytes "DELETE" then
        __delete Faults.none env0 (mkReq "GET" "//x" "") []
      else pear_fail env0 (mkReq "GET" "//x" "") :=
  pear_key_extraction Faults.none env0 (mkReq "GET" "//x" "") slash [] (cbytes "x")
    (by decide) (by decide) (by decide)

/-- C8, as the code has it. The key that `__pear` extracts and hands to the handler has
length greater than 0 exactly when the byte after the leading one is not `'/'`; for a
path that begins with two slashes the key handed over has length 0. -/
theorem pear_key_length (f : Faults) (env : Env) (req : h2o_req_t) (key : Bytes)
    (h : pear_key req.path = some key) :
    (__pear f env req =
      if req.method = cbytes "PUT" then __put f env req key
      else if req.method = cbytes "GET" then __get f env req key
      else if req.method = cbytes "DELETE" then __delete f env req key
      else pear_fail env req) ∧
    (0 < key.length ↔ ¬ ∃ c rest, req.path = c :: slash :: rest) := by
  refine ⟨pear_dispatch f env req key h, ?_⟩
  obtain ⟨c, rest, hp, hs, _⟩ := pear_key_some req.path key h
  rw [hp]
  cases key with
  | nil => simp
  | cons b key =>
    have hb : b ≠ slash := fun e => hs (by simp [e])
    simp [hb]

theorem pear_key_length_witness :
    (__pear Faults.none env0 (mkReq "PUT" "/foo/x" "hello") =
      if (mkReq "PUT" "/foo/x" "hello").method = cbytes "PUT" then
        __put Faults.none env0 (mkReq "PUT" "/foo/x" "hello") (cbytes "foo")
      else if (mkReq "PUT" "/foo/x" "hello").method = cbytes "GET" then
        __get Faults.none env0 (mkReq "PUT" "/foo/x" "hello") (cbytes "foo")
      else if (mkReq "PUT" "/foo/x" "hello").method = cbytes "DELETE" then
        __delete Faults.none env0 (mkReq "PUT" "/foo/x" "hello") (cbytes "foo")
      else pear_fail env0 (mkReq "PUT" "/foo/x" "hello")) ∧
    (0 < (cbytes "foo").length ↔
      ¬ ∃ c rest, (mkReq "PUT" "/foo/x" "hello").path = c :: slash :: rest) :=
  pear_key_length Faults.none env0 (mkReq "PUT" "/foo/x" "hello") (cbytes "foo") (by decide)

/-- C8, counterexample. For the path `//x` the key that `__pear` extracts has length 0,
and it is that zero-length key that reaches the storage engine's `get`. -/
theorem pear_empty_key :
    ∃ k, pear_key (cbytes "//x") = some k ∧ ¬ 0 < k.length ∧
      (__pear Faults.none env0 (mkReq "GET" "//x" "")).env.calls =
        [Call.txn_begin MDB_RDONLY, Call.get k, Call.txn_commit] :=
  ⟨[], by decide, by decide, by decide⟩

/-! ## Handler runs without storage failure -/

theorem put_run (env : Env) (req : h2o_req_t) (key : Bytes) :
    __put Faults.none env req key =
      Outcome.returned 0
        ⟨fun k1 => if k1 = key then some req.entity else env.docs k1, env.open_txns,
          env.calls ++ [Call.txn_begin 0, Call.put key req.entity, Call.txn_commit]⟩
        (h2o_send (h2o_start_response (h2o_add_header (set_status req 200 "OK")
          H2O_TOKEN_CONTENT_TYPE "text/plain; charset=utf-8")) []) := by
  simp [__put, mdb_txn_begin, mdb_put, mdb_txn_commit, Faults.none]

theorem get_run_found (env : Env) (req : h2o_req_t) (key v : Bytes)
    (h : env.docs key = some v) :
    __get Faults.none env req key =
      Outcome.returned 0
        ⟨env.docs, env.open_txns,
          env.calls ++ [Call.txn_begin MDB_RDONLY, Call.get key, Call.txn_commit]⟩
        (h2o_send (h2o_start_response (h2o_add_header (set_status req 200 "OK")
          H2O_TOKEN_CONTENT_TYPE "text/plain; charset=utf-8")) v) := by
  simp [__get, mdb_txn_begin, mdb_get, mdb_txn_commit, Faults.none, h, MDB_RDONLY]

theorem get_run_missing (env : Env) (req : h2o_req_t) (key : Bytes)
    (h : env.docs key = Option.none) :
    __get Faults.none env req key =
      Outcome.returned 0
        ⟨env.docs, env.open_txns,
          env.calls ++ [Call.txn_begin MDB_RDONLY, Call.get key, Call.txn_commit]⟩
        (h2o_send { h2o_start_response (h2o_add_header (set_status req 404 "NOT FOUND")
          H2O_TOKEN_CONTENT_LENGTH "0") with http1_is_persistent := 1 } []) := by
  simp [__get, mdb_txn_begin, mdb_get, mdb_txn_commit, Faults.none, h, MDB_RDONLY,
    MDB_NOTFOUND]

theorem delete_run_found (env : Env) (req : h2o_req_t) (key v : Bytes)
    (h : env.docs key = some v) :
    __delete Faults.none env req key =
      Outcome.returned 0
        ⟨fun k1 => if k1 = key then Option.none else env.docs k1, env.open_txns,
          env.calls ++ [Call.txn_begin 0, Call.del key, Call.txn_commit]⟩
        (h2o_send (h2o_start_response (set_status req 200 "OK")) []) := by
  simp [__delete, mdb_txn_begin, mdb_del, mdb_txn_commit, Faults.none, h]

theorem delete_run_missing (env : Env) (req : h2o_req_t) (key : Bytes)
    (h : env.docs key = Option.none) :
    __delete Faults.none env req key =
      Outcome.returned 0
        ⟨env.docs, env.open_txns,
          env.calls ++ [Call.txn_begin 0, Call.del key, Call.txn_commit]⟩
        (h2o_send (h2o_start_response (set_status req 404 "NOT FOUND")) []) := by
  simp [__delete, mdb_txn_begin, mdb_del, mdb_txn_commit, Faults.none, h, MDB_NOTFOUND]

/-- PUT through the router, then GET through the router, same key, no storage failure. -/
theorem pear_put_get (env : Env) (rput rget : h2o_req_t) (k : Bytes)
    (hm1 : rput.method = cbytes "PUT") (hk1 : pear_key rput.path = some k)
    (hm2 : rget.method = cbytes "GET") (hk2 : pear_key rget.path = some k) :
    ∃ env1 r1 env2 r2,
      __pear Faults.none env rput = Outcome.returned 0 env1 r1 ∧
      r1.res.status = 200 ∧ r1.sent = some [] ∧
      __pear Faults.none env1 rget = Outcome.returned 0 env2 r2 ∧
      r2.res.status = 200 ∧ r2.sent = some rput.entity := by
  have hput : __pear Faults.none env rput = __put Faults.none env rput k := by
    rw [pear_dispatch _ env rput k hk1, if_pos hm1]
  have hne : rget.method ≠ cbytes "PUT" := by rw [hm2]; decide
  have hget : ∀ e : Env, __pear Faults.none e rget = __get Faults.none e rget k := by
    intro e
    rw [pear_dispatch _ e rget k hk2, if_neg hne, if_pos hm2]
  have h1 := hput.trans (put_run env rput k)
  have h2 := (hget (__put Faults.none env rput k).env).trans
    (get_run_found _ rget k rput.entity (by simp [put_run, Outcome.env]))
  rw [put_run] at h2
  exact ⟨_, _, _, _, h1, rfl, rfl, h2, rfl, rfl⟩

/-- C1. Round trip and last write wins: whatever the table holds, for two paths with
the same key `k` (a leading byte, `k`, a `'/'`, then anything), when no storage call
fails, `PUT` of body `v` through `__pear` returns 0 with status 200 and a zero-length
body, and a `GET` routed right after returns 0 with status 200 and body `v`, also for
the zero-length body. Hence after `PUT(k, v1)`, `PUT(k, v2)` the `GET` returns `v2`. -/
theorem put_get_round_trip (env : Env) (rput0 rput rget : h2o_req_t) (c0 c1 c2 : UInt8)
    (k rest0 rest1 rest2 : Bytes) (hs : slash ∉ k) (hz : (0 : UInt8) ∉ k)
    (hm0 : rput0.method = cbytes "PUT") (hp0 : rput0.path = c0 :: (k ++ slash :: rest0))
    (hm1 : rput.method = cbytes "PUT") (hp1 : rput.path = c1 :: (k ++ slash :: rest1))
    (hm2 : rget.method = cbytes "GET") (hp2 : rget.path = c2 :: (k ++ slash :: rest2)) :
    (∃ env1 r1 env2 r2,
      __pear Faults.none env rput = Outcome.returned 0 env1 r1 ∧
      r1.res.status = 200 ∧ r1.sent = some [] ∧
      __pear Faults.none env1 rget = Outcome.returned 0 env2 r2 ∧
      r2.res.status = 200 ∧ r2.sent = some rput.entity) ∧
    (∃ enva ra env1 r1 env2 r2,
      __pear Faults.none env rput0 = Outcome.returned 0 enva ra ∧
      __pear Faults.none enva rput = Outcome.returned 0 env1 r1 ∧
      __pear Faults.none env1 rget = Outcome.returned 0 env2 r2 ∧
      r2.res.status = 200 ∧ r2.sent = some rput.entity) := by
  have hk0 : pear_key rput0.path = some k := by rw [hp0]; exact pear_key_of_path c0 k rest0 hs hz
  have hk1 : pear_key rput.path = some k := by rw [hp1]; exact pear_key_of_path c1 k rest1 hs hz
  have hk2 : pear_key rget.path = some k := by rw [hp2]; exact pear_key_of_path c2 k rest2 hs hz
  refine ⟨pear_put_get env rput rget k hm1 hk1 hm2 hk2, ?_⟩
  have h0 : __pear Faults.none env rput0 = __put Faults.none env rput0 k := by
    rw [pear_dispatch _ env rput0 k hk0, if_pos hm0]
  obtain ⟨env1, r1, env2, r2, h1, _, _, h2, h3, h4⟩ :=
    pear_put_get (__put Faults.none env rput0 k).env rput rget k hm1 hk1 hm2 hk2
  refine ⟨_, _, env1, r1, env2, r2, h0.trans (put_run env rput0 k), ?_, h2, h3, h4⟩
  rw [put_run] at h1
  exact h1

theorem put_get_round_trip_witness :
    (∃ env1 r1 env2 r2,
      __pear Faults.none env0 (mkReq "PUT" "/foo/x" "hello") = Outcome.returned 0 env1 r1 ∧
      r1.res.status = 200 ∧ r1.sent = some [] ∧
      __pear Faults.none env1 (mkReq "GET" "/foo/" "") = Outcome.returned 0 env2 r2 ∧
      r2.res.status = 200 ∧ r2.sent = some (mkReq "PUT" "/foo/x" "hello").entity) ∧
    (∃ enva ra env1 r1 env2 r2,
      __pear Faults.none env0 (mkReq "PUT" "/foo/y" "old") = Outcome.returned 0 enva ra ∧
      __pear Faults.none enva (mkReq "PUT" "/foo/x" "hello") = Outcome.returned 0 env1 r1 ∧
      __pear Faults.none env1 (mkReq "GET" "/foo/" "") = Outcome.returned 0 env2 r2 ∧
      r2.res.status = 200 ∧ r2.sent = some (mkReq "PUT" "/foo/x" "hello").entity) :=
  put_get_round_trip env0 (mkReq "PUT" "/foo/y" "old") (mkReq "PUT" "/foo/x" "hello")
    (mkReq "GET" "/foo/" "") slash slash slash (cbytes "foo") (cbytes "y") (cbytes "x") []
    (by decide) (by decide) (by decide) (by decide) (by decide) (by decide) (by decide)
    (by decide)

/-- C2. DELETE semantics: whatever the table holds, when no storage call fails,
`__delete` returns 0 with a zero-length body, status 200 if the key was present and 404
if it was absent, in which case the table is unchanged. Afterwards the key is absent
and every other key holds what it held; a `GET` of the key right after answers 404, and
so does a second `DELETE`. -/
theorem delete_semantics (env : Env) (req rget rdel : h2o_req_t) (k : Bytes) :
    ∃ env1 r1,
      __delete Faults.none env req k = Outcome.returned 0 env1 r1 ∧
      r1.sent = some [] ∧
      r1.res.status = (if (env.docs k).isSome then 200 else 404) ∧
      (env.docs k = Option.none → env1.docs = env.docs) ∧
      env1.docs k = Option.none ∧
      (∀ k1, k1 ≠ k → env1.docs k1 = env.docs k1) ∧
      (∃ env2 r2, __get Faults.none env1 rget k = Outcome.returned 0 env2 r2 ∧
        r2.res.status = 404 ∧ r2.sent = some []) ∧
      (∃ env2 r2, __delete Faults.none env1 rdel k = Outcome.returned 0 env2 r2 ∧
        r2.res.status = 404 ∧ r2.sent = some [] ∧ env2.docs = env1.docs) := by
  cases h : env.docs k with
  | none =>
    refine ⟨_, _, delete_run_missing env req k h, rfl, by simp [set_status, h2o_send,
      h2o_start_response], fun _ => rfl, h, fun _ _ => rfl, ?_, ?_⟩
    · exact ⟨_, _, get_run_missing _ rget k h, rfl, rfl⟩
    · exact ⟨_, _, delete_run_missing _ rdel k h, rfl, rfl, rfl⟩
  | some v =>
    refine ⟨_, _, delete_run_found env req k v h, rfl, by simp [set_status, h2o_send,
      h2o_start_response], fun h1 => by simp at h1, by simp, fun k1 hk => by simp [hk], ?_, ?_⟩
    · exact ⟨_, _, get_run_missing _ rget k (by simp), rfl, rfl⟩
    · exact ⟨_, _, delete_run_missing _ rdel k (by simp), rfl, rfl, rfl⟩

/-- C5. GET miss: for a key absent from the table, when no storage call fails, `__get`
begins a read-only transaction, looks the key up and commits, leaving the table and the
number of open transactions as they were; it answers status 404 with a zero-length body
and one more header, `Content-Length` with value `0`, sets `http1_is_persistent` to 1
and returns 0. The commit comes before the response: when the commit fails instead,
the process is aborted with the request untouched. -/
theorem get_miss (env : Env) (req : h2o_req_t) (k : Bytes) (h : env.docs k = Option.none) :
    (∃ env1 r1,
      __get Faults.none env req k = Outcome.returned 0 env1 r1 ∧
      env1.docs = env.docs ∧ env1.open_txns = env.open_txns ∧
      env1.calls = env.calls ++ [Call.txn_begin MDB_RDONLY, Call.get k, Call.txn_commit] ∧
      r1.res.status = 404 ∧ r1.sent = some [] ∧
      r1.res.headers = req.res.headers ++ [(H2O_TOKEN_CONTENT_LENGTH, "0")] ∧
      r1.http1_is_persistent = 1) ∧
    (∀ rc, rc ≠ 0 → ∃ env1, __get ⟨0, 0, rc⟩ env req k = Outcome.aborted env1 req) := by
  refine ⟨⟨_, _, get_run_missing env req k h, rfl, rfl, rfl, rfl, rfl, rfl, rfl⟩, ?_⟩
  intro rc hrc
  simp [__get, mdb_txn_begin, mdb_get, mdb_txn_commit, h, MDB_NOTFOUND, hrc]

theorem get_miss_witness :
    (∃ env1 r1,
      __get Faults.none env0 (mkReq "GET" "/foo/" "") (cbytes "foo") =
        Outcome.returned 0 env1 r1 ∧
      env1.docs = env0.docs ∧ env1.open_txns = env0.open_txns ∧
      env1.calls = env0.calls ++
        [Call.txn_begin MDB_RDONLY, Call.get (cbytes "foo"), Call.txn_commit] ∧
      r1.res.status = 404 ∧ r1.sent = some [] ∧
      r1.res.headers = (mkReq "GET" "/foo/" "").res.headers ++
        [(H2O_TOKEN_CONTENT_LENGTH, "0")] ∧
      r1.http1_is_persistent = 1) ∧
    (∀ rc, rc ≠ 0 → ∃ env1, __get ⟨0, 0, rc⟩ env0 (mkReq "GET" "/foo/" "") (cbytes "foo") =
      Outcome.aborted env1 (mkReq "GET" "/foo/" "")) :=
  get_miss env0 (mkReq "GET" "/foo/" "") (cbytes "foo") rfl

/-! ## Handler runs under any storage outcome -/

theorem op_cases (e : Int) : e = 0 ∨ e = -30798 ∨ (e ≠ 0 ∧ e ≠ -30798) := by omega

theorem put_returned (f : Faults) (env : Env) (req : h2o_req_t) (key : Bytes) (ret : Int)
    (env1 : Env) (r : h2o_req_t) (h : __put f env req key = Outcome.returned ret env1 r) :
    r.res.status = 200 ∧ r.sent = some [] := by
  by_cases hb : f.begin_rc = 0 <;> by_cases ho : f.op_rc = 0 <;>
    by_cases hc : f.commit_rc = 0 <;>
    simp [__put, mdb_txn_begin, mdb_put, mdb_txn_commit, hb, ho, hc] at h
  obtain ⟨_, _, rfl⟩ := h
  exact ⟨rfl, rfl⟩

theorem get_returned (f : Faults) (env : Env) (req : h2o_req_t) (key : Bytes) (ret : Int)
    (env1 : Env) (r : h2o_req_t) (h : __get f env req key = Outcome.returned ret env1 r) :
    (r.res.status = 200 ∧ ∃ v, r.sent = some v ∧ env.docs key = some v) ∨
    (r.res.status = 404 ∧ r.sent = some []) ∨
    (r.res.status = 400 ∧ r.sent = some []) := by
  by_cases hb : f.begin_rc = 0 <;> by_cases hc : f.commit_rc = 0 <;>
    cases hd : env.docs key <;> rcases op_cases f.op_rc with ho | ho | ⟨ho, hn⟩ <;>
    simp [__get, handler_fail, mdb_txn_begin, mdb_get, mdb_txn_commit, hb, ho, hc, hd,
      MDB_NOTFOUND, *] at h <;>
    obtain ⟨_, _, rfl⟩ := h <;>
    simp [set_status, h2o_send, h2o_start_response, h2o_add_header]

theorem delete_returned (f : Faults) (env : Env) (req : h2o_req_t) (key : Bytes) (ret : Int)
    (env1 : Env) (r : h2o_req_t) (h : __delete f env req key = Outcome.returned ret env1 r) :
    (r.res.status = 200 ∨ r.res.status = 404 ∨ r.res.status = 400) ∧ r.sent = some [] := by
  by_cases hb : f.begin_rc = 0 <;> by_cases hc : f.commit_rc = 0 <;>
    cases hd : env.docs key <;> rcases op_cases f.op_rc with ho | ho | ⟨ho, hn⟩ <;>
    simp [__delete, handler_fail, mdb_txn_begin, mdb_del, mdb_txn_commit, hb, ho, hc, hd,
      MDB_NOTFOUND, *] at h <;>
    obtain ⟨_, _, rfl⟩ := h <;>
    simp [set_status, h2o_send, h2o_start_response]

/-- C7. Status and body discipline: whenever `__pear` returns, for any method, path,
table and storage outcome, a body has been sent, the status is 200, 400 or 404, a
status other than 200 comes with a zero-length body, and a non-empty body comes only
with the status 200 of a `GET` whose key held exactly that body in the table. -/
theorem status_body_discipline (f : Faults) (env : Env) (req : h2o_req_t) (ret : Int)
    (env1 : Env) (r : h2o_req_t) (h : __pear f env req = Outcome.returned ret env1 r) :
    (r.res.status = 200 ∨ r.res.status = 400 ∨ r.res.status = 404) ∧
    (∃ b, r.sent = some b) ∧
    (r.res.status ≠ 200 → r.sent = some []) ∧
    (∀ b, r.sent = some b → b ≠ [] →
      r.res.status = 200 ∧ req.method = cbytes "GET" ∧
      ∃ k, pear_key req.path = some k ∧ env.docs k = some b) := by
  have hfail : ∀ r1, pear_fail env req = Outcome.returned ret env1 r1 →
      r1.res.status = 400 ∧ r1.sent = some [] := by
    intro r1 h1
    simp only [pear_fail, Outcome.returned.injEq] at h1
    obtain ⟨_, _, rfl⟩ := h1
    exact ⟨rfl, rfl⟩
  have hempty : ∀ r1 : h2o_req_t,
      (r1.res.status = 200 ∨ r1.res.status = 400 ∨ r1.res.status = 404) →
      r1.sent = some [] →
      (r1.res.status = 200 ∨ r1.res.status = 400 ∨ r1.res.status = 404) ∧
      (∃ b, r1.sent = some b) ∧
      (r1.res.status ≠ 200 → r1.sent = some []) ∧
      (∀ b, r1.sent = some b → b ≠ [] →
        r1.res.status = 200 ∧ req.method = cbytes "GET" ∧
        ∃ k, pear_key req.path = some k ∧ env.docs k = some b) := by
    intro r1 hst hs
    refine ⟨hst, ⟨[], hs⟩, fun _ => hs, ?_⟩
    intro b hb hne
    rw [hs] at hb
    exact absurd (Option.some.inj hb).symm hne
  rcases Option.eq_none_or_eq_some (pear_key req.path) with hk | ⟨key, hk⟩
  · simp only [__pear, hk] at h
    obtain ⟨h1, h2⟩ := hfail r h
    exact hempty r (Or.inr (Or.inl h1)) h2
  · rw [pear_dispatch f env req key hk] at h
    by_cases hput : req.method = cbytes "PUT"
    · rw [if_pos hput] at h
      obtain ⟨h1, h2⟩ := put_returned f env req key ret env1 r h
      exact hempty r (Or.inl h1) h2
    · rw [if_neg hput] at h
      by_cases hget : req.method = cbytes "GET"
      · rw [if_pos hget] at h
        rcases get_returned f env req key ret env1 r h with ⟨h1, v, h2, h3⟩ | ⟨h1, h2⟩ | ⟨h1, h2⟩
        · refine ⟨Or.inl h1, ⟨v, h2⟩, fun hne => absurd h1 hne, ?_⟩
          intro b hb _
          rw [h2] at hb
          have hvb : v = b := Option.some.inj hb
          subst hvb
          exact ⟨h1, hget, key, hk, h3⟩
        · exact hempty r (Or.inr (Or.inr h1)) h2
        · exact hempty r (Or.inr (Or.inl h1)) h2
      · rw [if_neg hget] at h
        by_cases hdel : req.method = cbytes "DELETE"
        · rw [if_pos hdel] at h
          obtain ⟨h1, h2⟩ := delete_returned f env req key ret env1 r h
          refine hempty r ?_ h2
          rcases h1 with h1 | h1 | h1
          · exact Or.inl h1
          · exact Or.inr (Or.inr h1)
          · exact Or.inr (Or.inl h1)
        · rw [if_neg hdel] at h
          obtain ⟨h1, h2⟩ := hfail r h
          exact hempty r (Or.inr (Or.inl h1)) h2

theorem status_body_discipline_witness :
    ((__pear Faults.none env_hello (mkReq "GET" "/foo/" "")).req.res.status = 200 ∨
      (__pear Faults.none env_hello (mkReq "GET" "/foo/" "")).req.res.status = 400 ∨
      (__pear Faults.none env_hello (mkReq "GET" "/foo/" "")).req.res.status = 404) ∧
    (∃ b, (__pear Faults.none env_hello (mkReq "GET" "/foo/" "")).req.sent = some b) ∧
    ((__pear Faults.none env_hello (mkReq "GET" "/foo/" "")).req.res.status ≠ 200 →
      (__pear Faults.none env_hello (mkReq "GET" "/foo/" "")).req.sent = some []) ∧
    (∀ b, (__pear Faults.none env_hello (mkReq "GET" "/foo/" "")).req.sent = some b → b ≠ [] →
      (__pear Faults.none env_hello (mkReq "GET" "/foo/" "")).req.res.status = 200 ∧
      (mkReq "GET" "/foo/" "").method = cbytes "GET" ∧
      ∃ k, pear_key (mkReq "GET" "/foo/" "").path = some k ∧ env_hello.docs k = some b) :=
  status_body_discipline Faults.none env_hello (mkReq "GET" "/foo/" "") 0
    (__pear Faults.none env_hello (mkReq "GET" "/foo/" "")).env
    (__pear Faults.none env_hello (mkReq "GET" "/foo/" "")).req rfl

/-! ## Storage failures -/

/-- C6, counterexample. When `mdb_get` fails with `MDB_BAD_VALSIZE`, which is neither
success nor not-found, `__get` does not abort: it returns -1 after starting a response
with status 400 and sending a zero-length body. -/
theorem get_failure_answers_400 :
    (__get ⟨0, MDB_BAD_VALSIZE, 0⟩ env0 (mkReq "GET" "/foo/" "") (cbytes "foo")).ret =
      some (-1) ∧
    (__get ⟨0, MDB_BAD_VALSIZE, 0⟩ env0 (mkReq "GET" "/foo/" "")
      (cbytes "foo")).req.res.status = 400 ∧
    (__get ⟨0, MDB_BAD_VALSIZE, 0⟩ env0 (mkReq "GET" "/foo/" "")
      (cbytes "foo")).req.started = true ∧
    (__get ⟨0, MDB_BAD_VALSIZE, 0⟩ env0 (mkReq "GET" "/foo/" "") (cbytes "foo")).req.sent =
      some [] := by
  decide

/-- C6, as the code has it. In `__put`, `__get` and `__delete` a failing transaction
begin aborts the process, and so does a failing commit once it is reached (after a put,
or after a get or delete that reported success or not-found); in `__put` a failing put
aborts the process. In each of these cases the request is left as it was: no response.
A get or delete that fails with anything other than not-found does not abort: the
handler answers status 400 with a zero-length body and returns -1. -/
theorem storage_failure_outcomes (f : Faults) (env : Env) (req : h2o_req_t) (key : Bytes) :
    (f.begin_rc ≠ 0 →
      (∃ e, __put f env req key = Outcome.aborted e req) ∧
      (∃ e, __get f env req key = Outcome.aborted e req) ∧
      (∃ e, __delete f env req key = Outcome.aborted e req)) ∧
    (f.begin_rc = 0 → f.op_rc ≠ 0 → ∃ e, __put f env req key = Outcome.aborted e req) ∧
    (f.begin_rc = 0 → f.op_rc = 0 → f.commit_rc ≠ 0 →
      (∃ e, __put f env req key = Outcome.aborted e req) ∧
      (∃ e, __get f env req key = Outcome.aborted e req) ∧
      (∃ e, __delete f env req key = Outcome.aborted e req)) ∧
    (f.begin_rc = 0 → f.op_rc = MDB_NOTFOUND → f.commit_rc ≠ 0 →
      (∃ e, __get f env req key = Outcome.aborted e req) ∧
      (∃ e, __delete f env req key = Outcome.aborted e req)) ∧
    (f.begin_rc = 0 → f.op_rc ≠ 0 → f.op_rc ≠ MDB_NOTFOUND →
      (∃ e r, __get f env req key = Outcome.returned (-1) e r ∧
        r.res.status = 400 ∧ r.sent = some []) ∧
      (∃ e r, __delete f env req key = Outcome.returned (-1) e r ∧
        r.res.status = 400 ∧ r.sent = some [])) := by
  refine ⟨?_, ?_, ?_, ?_, ?_⟩
  · intro hb
    simp [__put, __get, __delete, mdb_txn_begin, hb]
  · intro hb ho
    simp [__put, mdb_txn_begin, mdb_put, hb, ho]
  · intro hb ho hc
    cases hd : env.docs key <;>
      simp [__put, __get, __delete, mdb_txn_begin, mdb_put, mdb_get, mdb_del, mdb_txn_commit,
        MDB_NOTFOUND, hb, ho, hc, hd]
  · intro hb ho hc
    simp [__get, __delete, mdb_txn_begin, mdb_get, mdb_del, mdb_txn_commit,
      MDB_NOTFOUND, hb, ho, hc]
  · intro hb ho hn
    have hg : __get f env req key = handler_fail
        ⟨env.docs, env.open_txns + 1, env.calls ++ [Call.txn_begin MDB_RDONLY, Call.get key]⟩
        req := by
      simp [__get, mdb_txn_begin, mdb_get, hb, ho, hn]
    have hd : __delete f env req key = handler_fail
        ⟨env.docs, env.open_txns + 1, env.calls ++ [Call.txn_begin 0, Call.del key]⟩
        req := by
      simp [__delete, mdb_txn_begin, mdb_del, hb, ho, hn]
    exact ⟨⟨_, _, hg, rfl, rfl⟩, ⟨_, _, hd, rfl, rfl⟩⟩

theorem storage_failure_outcomes_witness :
    (∃ e r, __get ⟨0, MDB_BAD_VALSIZE, 0⟩ env_hello (mkReq "GET" "/foo/" "") (cbytes "foo") =
        Outcome.returned (-1) e r ∧ r.res.status = 400 ∧ r.sent = some []) ∧
    (∃ e r, __delete ⟨0, MDB_BAD_VALSIZE, 0⟩ env_hello (mkReq "GET" "/foo/" "")
        (cbytes "foo") = Outcome.returned (-1) e r ∧ r.res.status = 400 ∧ r.sent = some []) :=
  (storage_failure_outcomes ⟨0, MDB_BAD_VALSIZE, 0⟩ env_hello (mkReq "GET" "/foo/" "")
    (cbytes "foo")).2.2.2.2 rfl (by decide) (by decide)

/-- C10, the failing run. With `mdb_get` (for `GET //x`) or `mdb_del` (for `DELETE //x`)
failing with `MDB_BAD_VALSIZE`, the handler returns -1 with status 400 while the
transaction it began is still open: one transaction is open where none was before, and
the log holds the begin and the lookup or delete but no commit. -/
theorem failure_leaves_txn_open :
    (__pear ⟨0, MDB_BAD_VALSIZE, 0⟩ env0 (mkReq "GET" "//x" "")).ret = some (-1) ∧
    (__pear ⟨0, MDB_BAD_VALSIZE, 0⟩ env0 (mkReq "GET" "//x" "")).req.res.status = 400 ∧
    (__pear ⟨0, MDB_BAD_VALSIZE, 0⟩ env0 (mkReq "GET" "//x" "")).env.open_txns = 1 ∧
    (__pear ⟨0, MDB_BAD_VALSIZE, 0⟩ env0 (mkReq "GET" "//x" "")).env.calls =
      [Call.txn_begin MDB_RDONLY, Call.get []] ∧
    (__pear ⟨0, MDB_BAD_VALSIZE, 0⟩ env0 (mkReq "DELETE" "//x" "")).ret = some (-1) ∧
    (__pear ⟨0, MDB_BAD_VALSIZE, 0⟩ env0 (mkReq "DELETE" "//x" "")).req.res.status = 400 ∧
    (__pear ⟨0, MDB_BAD_VALSIZE, 0⟩ env0 (mkReq "DELETE" "//x" "")).env.open_txns = 1 ∧
    (__pear ⟨0, MDB_BAD_VALSIZE, 0⟩ env0 (mkReq "DELETE" "//x" "")).env.calls =
      [Call.txn_begin 0, Call.del []] ∧
    env0.open_txns = 0 := by
  decide

/-! ## The scenario of the specification -/

/-- `PUT /foo/x` with body `hello` answers 200; `GET /foo/` then answers 200 with body
`hello`; `DELETE /foo/` answers 200; `GET /foo/` then answers 404; every transaction
has been closed. -/
theorem spec_scenario :
    (__pear Faults.none env0 (mkReq "PUT" "/foo/x" "hello")).req.res.status = 200 ∧
    (__pear Faults.none (after env0 (mkReq "PUT" "/foo/x" "hello"))
      (mkReq "GET" "/foo/" "")).req.res.status = 200 ∧
    (__pear Faults.none (after env0 (mkReq "PUT" "/foo/x" "hello"))
      (mkReq "GET" "/foo/" "")).req.sent = some (cbytes "hello") ∧
    (__pear Faults.none (after (after env0 (mkReq "PUT" "/foo/x" "hello"))
      (mkReq "GET" "/foo/" "")) (mkReq "DELETE" "/foo/" "")).req.res.status = 200 ∧
    (__pear Faults.none (after (after (after env0 (mkReq "PUT" "/foo/x" "hello"))
      (mkReq "GET" "/foo/" "")) (mkReq "DELETE" "/foo/" ""))
      (mkReq "GET" "/foo/" "")).req.res.status = 404 ∧
    (after (after (after (after env0 (mkReq "PUT" "/foo/x" "hello"))
      (mkReq "GET" "/foo/" "")) (mkReq "DELETE" "/foo/" ""))
      (mkReq "GET" "/foo/" "")).open_txns = 0 := by
  decide

end Pear
